import Mathlib

/-!
Verification of the irrigation advisory program in `SIH.py`.

The program is a closed-form calculator: lookup tables for soil and crop
growth stage, an area unit converter, a simplified Hargreaves
evapotranspiration estimate, a same-day irrigation-need estimator, a status
classification, and a 7-day plan loop with per-day random temperature jitter.

Modelling choices:
- Python floats are modelled as real numbers (`ℝ`), `math.sqrt` as `Real.sqrt`.
- Python dict lookups are modelled as `String → Option _` (a `KeyError`
  becomes `none`), so `irrigation_need_liters` returns `Option (ℝ × ℝ × ℝ)`.
- The numpy random draws of the plan loop are modelled by an injected stream
  `jitter : ℕ → ℝ`; day `i` consumes draws `2*i` (added to tmin) and
  `2*i + 1` (added to tmax), in the order the source draws them.
- Calendar dates are modelled as integer day numbers: the plan's day `i`
  carries date `today + i`.
-/

namespace SIH

noncomputable section

/-- The `SOIL_TARGET_RANGE` dict: soil type to target VWC range `(low, high)`. -/
def SOIL_TARGET_RANGE (s : String) : Option (ℝ × ℝ) :=
  if s = "रेतीली (Sandy)" then some (0.10, 0.18)
  else if s = "दोमट (Loam)" then some (0.18, 0.28)
  else if s = "चिकनी (Clay)" then some (0.25, 0.35)
  else none

/-- The `SOIL_RAW_MM_PER_M` dict: soil type to readily-available water (mm per m). -/
def SOIL_RAW_MM_PER_M (s : String) : Option ℝ :=
  if s = "रेतीली (Sandy)" then some 60
  else if s = "दोमट (Loam)" then some 90
  else if s = "चिकनी (Clay)" then some 120
  else none

/-- The `ROOT_DEPTH_M` dict: growth stage to root depth (m). -/
def ROOT_DEPTH_M (st : String) : Option ℝ :=
  if st = "शुरुआती अवस्था" then some 0.3
  else if st = "वनस्पति अवस्था" then some 0.6
  else if st = "फूल आने की अवस्था" then some 0.8
  else if st = "फल आने की अवस्था" then some 1.0
  else none

/-- The `KC_STAGE` dict: growth stage to crop coefficient. -/
def KC_STAGE (st : String) : Option ℝ :=
  if st = "शुरुआती अवस्था" then some 0.6
  else if st = "वनस्पति अवस्था" then some 0.95
  else if st = "फूल आने की अवस्था" then some 1.05
  else if st = "फल आने की अवस्था" then some 0.9
  else none

/-- The three soil-type keys of the lookup tables. -/
def soilKeys : List String :=
  ["रेतीली (Sandy)", "दोमट (Loam)", "चिकनी (Clay)"]

/-- The four growth-stage keys of the lookup tables. -/
def stageKeys : List String :=
  ["शुरुआती अवस्था", "वनस्पति अवस्था", "फूल आने की अवस्था", "फल आने की अवस्था"]

/-- `area_to_sq_m(area_value, unit)` from the source: acre and hectare scale,
`m²` and any unrecognized unit pass through unchanged. -/
def area_to_sq_m (area_value : ℝ) (unit : String) : ℝ :=
  if unit = "एकड़" then area_value * 4046.8564224
  else if unit = "हेक्टेयर" then area_value * 10000.0
  else if unit = "m²" then area_value
  else area_value

/-- `simple_eto_mm_per_day(tmin_c, tmax_c)` from the source:
`tmean = (tmin + tmax)/2`, `td = max(tmax - tmin, 0)`,
`eto = max(0, 0.0023 * (tmean + 17.8) * sqrt(td) * 10)`. -/
def simple_eto_mm_per_day (tmin_c tmax_c : ℝ) : ℝ :=
  let tmean := (tmin_c + tmax_c) / 2
  let td := max (tmax_c - tmin_c) 0
  max 0 (0.0023 * (tmean + 17.8) * Real.sqrt td * 10)

/-- `irrigation_need_liters(soil_type, stage, current_vwc, target_low, area_m2,
tmin_c, tmax_c)` from the source, returning `(liters, deficit_mm, etc_mm)`.
The dict lookups may fail (`KeyError`), modelled by `none`. -/
def irrigation_need_liters (soil_type stage : String)
    (current_vwc target_low area_m2 tmin_c tmax_c : ℝ) : Option (ℝ × ℝ × ℝ) :=
  match ROOT_DEPTH_M stage, SOIL_RAW_MM_PER_M soil_type, KC_STAGE stage with
  | some root_m, some raw_mm_per_m, some kc =>
    let deficit_frac := max (target_low - current_vwc) 0 / max target_low 1e-6
    let deficit_mm := deficit_frac * raw_mm_per_m * root_m
    let eto := simple_eto_mm_per_day tmin_c tmax_c
    let etc_mm := kc * eto
    let total_mm := max 0 (deficit_mm + etc_mm)
    some (total_mm * area_m2, deficit_mm, etc_mm)
  | _, _, _ => none

/-- Advisory status shown by the UI. -/
inductive Status
  | NeedsWater
  | Sufficient
  | Monitor
deriving DecidableEq

/-- The status classification of the source
(`if vwc < low` / `elif vwc > high` / `else`). -/
def status_of (vwc low high : ℝ) : Status :=
  if vwc < low then Status.NeedsWater
  else if vwc > high then Status.Sufficient
  else Status.Monitor

/-- One row of the 7-day plan. -/
structure DailyForecastEntry where
  date : ℤ
  etc_mm : ℝ
  liters : ℝ

/-- One iteration of the plan loop: perturb both temperatures by the next two
jitter draws, compute ETo and ETc, and the liters for the field area. -/
def planEntry (kc area_m2 tmin tmax : ℝ) (jitter : ℕ → ℝ) (today : ℤ)
    (i : ℕ) : DailyForecastEntry :=
  let tmin_d := tmin + jitter (2 * i)
  let tmax_d := tmax + jitter (2 * i + 1)
  let eto_d := simple_eto_mm_per_day tmin_d tmax_d
  let etc_mm_d := kc * eto_d
  { date := today + i, etc_mm := etc_mm_d, liters := etc_mm_d * area_m2 }

/-- The 7-day plan loop of the source. `soil_type` and `vwc` are in scope at
the loop (the script computes them above it) but the loop body never reads
them; the loop reads only `KC_STAGE[stage]`, the base temperatures, the area,
today's date and the random stream. -/
def projectPlan (stage soil_type : String) (vwc tmin tmax area_m2 : ℝ)
    (today : ℤ) (jitter : ℕ → ℝ) : Option (List DailyForecastEntry) :=
  (KC_STAGE stage).map fun kc =>
    (List.range 7).map (planEntry kc area_m2 tmin tmax jitter today)

/-- The spec's deficit formula:
`deficitMm = (max(targetLow - vwc, 0) / max(targetLow, 1e-6)) * raw_mm_per_m * root_depth_m`. -/
def deficitMm_spec (vwc targetLow raw_mm_per_m root_depth_m : ℝ) : ℝ :=
  max (targetLow - vwc) 0 / max targetLow 1e-6 * raw_mm_per_m * root_depth_m

/-- The spec's crop-evapotranspiration formula:
`etcMm = kc * max(0, 0.0023 * ((tmin+tmax)/2 + 17.8) * sqrt(max(tmax - tmin, 0)) * 10)`. -/
def etcMm_spec (kc tmin tmax : ℝ) : ℝ :=
  kc * max 0 (0.0023 * ((tmin + tmax) / 2 + 17.8) * Real.sqrt (max (tmax - tmin) 0) * 10)

/-- The spec's liters formula: `liters = max(0, deficitMm + etcMm) * areaM2`. -/
def liters_spec (vwc targetLow raw_mm_per_m root_depth_m kc area_m2 tmin tmax : ℝ) : ℝ :=
  max 0 (deficitMm_spec vwc targetLow raw_mm_per_m root_depth_m + etcMm_spec kc tmin tmax) * area_m2

end

/-- Evaluating `irrigation_need_liters` once the three lookups are known:
the source's local bindings, written out. Shared by the claim theorems. -/
lemma irrigation_need_liters_eq (soil_type stage : String) (raw root kc : ℝ)
    (hraw : SOIL_RAW_MM_PER_M soil_type = some raw)
    (hroot : ROOT_DEPTH_M stage = some root)
    (hkc : KC_STAGE stage = some kc)
    (vwc target_low area_m2 tmin tmax : ℝ) :
    irrigation_need_liters soil_type stage vwc target_low area_m2 tmin tmax =
      some (max 0 (max (target_low - vwc) 0 / max target_low 1e-6 * raw * root
              + kc * simple_eto_mm_per_day tmin tmax) * area_m2,
            max (target_low - vwc) 0 / max target_low 1e-6 * raw * root,
            kc * simple_eto_mm_per_day tmin tmax) := by
  rw [irrigation_need_liters, hraw, hroot, hkc]

/-- Every value of the `SOIL_RAW_MM_PER_M` table is positive. -/
lemma soil_raw_pos {s : String} {raw : ℝ}
    (h : SOIL_RAW_MM_PER_M s = some raw) : 0 < raw := by
  rw [SOIL_RAW_MM_PER_M] at h
  split_ifs at h
  all_goals first
    | exact Option.noConfusion h
    | (injection h with h; subst h; norm_num)

/-- Every value of the `ROOT_DEPTH_M` table is positive. -/
lemma root_depth_pos {st : String} {root : ℝ}
    (h : ROOT_DEPTH_M st = some root) : 0 < root := by
  rw [ROOT_DEPTH_M] at h
  split_ifs at h
  all_goals first
    | exact Option.noConfusion h
    | (injection h with h; subst h; norm_num)

/-- Every value of the `KC_STAGE` table is positive. -/
lemma kc_stage_pos {st : String} {kc : ℝ}
    (h : KC_STAGE st = some kc) : 0 < kc := by
  rw [KC_STAGE] at h
  split_ifs at h
  all_goals first
    | exact Option.noConfusion h
    | (injection h with h; subst h; norm_num)

/-- The ETo estimate is nonnegative (outer clamp), with no hypothesis. -/
lemma simple_eto_nonneg (tmin tmax : ℝ) : 0 ≤ simple_eto_mm_per_day tmin tmax :=
  le_max_left _ _

/-- The Loam / vegetative-stage estimate at `vwc = 0`, `targetLow = 0.18`,
`areaM2 = -1`, `tmin = tmax = 20`: the deficit fraction is `1`, ETo is `0`,
so the result is `(-54, 54, 0)`. Shared by the claim theorems. -/
lemma irrigation_eval_neg_area :
    irrigation_need_liters "दोमट (Loam)" "वनस्पति अवस्था" 0 0.18 (-1) 20 20 =
      some (-54, 54, 0) := by
  rw [irrigation_need_liters]
  simp [ROOT_DEPTH_M, SOIL_RAW_MM_PER_M, KC_STAGE, simple_eto_mm_per_day]
  norm_num

/-- C1: for every soil type and growth stage present in the lookup tables (the
lookups succeed, returning `raw`, `root` and `kc`) and all real inputs, the
Estimator returns exactly the spec's `(liters, deficitMm, etcMm)` triple. -/
theorem estimator_matches_spec_formulas
    (soil_type stage : String) (raw root kc : ℝ)
    (hraw : SOIL_RAW_MM_PER_M soil_type = some raw)
    (hroot : ROOT_DEPTH_M stage = some root)
    (hkc : KC_STAGE stage = some kc)
    (vwc target_low area_m2 tmin tmax : ℝ) :
    irrigation_need_liters soil_type stage vwc target_low area_m2 tmin tmax =
      some (liters_spec vwc target_low raw root kc area_m2 tmin tmax,
            deficitMm_spec vwc target_low raw root,
            etcMm_spec kc tmin tmax) := by
  rw [irrigation_need_liters, hraw, hroot, hkc]
  rfl

/-- Witness for C1: the Loam / vegetative-stage table entries at a concrete
input. -/
theorem estimator_matches_spec_formulas_witness :
    SOIL_RAW_MM_PER_M "दोमट (Loam)" = some 90 ∧
    ROOT_DEPTH_M "वनस्पति अवस्था" = some 0.6 ∧
    KC_STAGE "वनस्पति अवस्था" = some 0.95 ∧
    irrigation_need_liters "दोमट (Loam)" "वनस्पति अवस्था" 0.16 0.18 1000 22 33 =
      some (liters_spec 0.16 0.18 90 0.6 0.95 1000 22 33,
            deficitMm_spec 0.16 0.18 90 0.6,
            etcMm_spec 0.95 22 33) := by
  refine ⟨by simp [SOIL_RAW_MM_PER_M], by simp [ROOT_DEPTH_M], by simp [KC_STAGE], ?_⟩
  exact estimator_matches_spec_formulas "दोमट (Loam)" "वनस्पति अवस्था" 90 0.6 0.95
    (by simp [SOIL_RAW_MM_PER_M]) (by simp [ROOT_DEPTH_M]) (by simp [KC_STAGE])
    0.16 0.18 1000 22 33

/-- C2 fails as stated: at `vwc = targetHigh` (Loam range `[0.18, 0.28]`,
`vwc = 0.28`) the claim says the status is `Sufficient` (`vwc >= targetHigh`),
but the code's `elif vwc > high` is strict, so it yields `Monitor`. -/
theorem status_boundary_counterexample :
    (0.28 : ℝ) ≥ 0.28 ∧ status_of 0.28 0.18 0.28 ≠ Status.Sufficient := by
  constructor
  · norm_num
  · rw [status_of, if_neg (by norm_num), if_neg (by norm_num)]
    simp

/-- C2 amended: the classification depends only on `vwc` against the soil's
`[targetLow, targetHigh]`: `vwc < targetLow → NeedsWater`,
`vwc > targetHigh → Sufficient` (strict), otherwise `Monitor`. -/
theorem status_classification (vwc low high : ℝ) :
    (vwc < low → status_of vwc low high = Status.NeedsWater) ∧
    (vwc > high → ¬ vwc < low → status_of vwc low high = Status.Sufficient) ∧
    (¬ vwc < low → ¬ vwc > high → status_of vwc low high = Status.Monitor) := by
  refine ⟨fun h1 => ?_, fun h2 h1 => ?_, fun h1 h2 => ?_⟩
  · rw [status_of, if_pos h1]
  · rw [status_of, if_neg h1, if_pos h2]
  · rw [status_of, if_neg h1, if_neg h2]

/-- Witness for C2: each of the three branches at a concrete input
(Loam range `[0.18, 0.28]`). -/
theorem status_classification_witness :
    status_of 0.16 0.18 0.28 = Status.NeedsWater ∧
    status_of 0.30 0.18 0.28 = Status.Sufficient ∧
    status_of 0.20 0.18 0.28 = Status.Monitor :=
  ⟨(status_classification 0.16 0.18 0.28).1 (by norm_num),
   (status_classification 0.30 0.18 0.28).2.1 (by norm_num) (by norm_num),
   (status_classification 0.20 0.18 0.28).2.2 (by norm_num) (by norm_num)⟩

/-- C8: for `tmax >= tmin` the ETo estimate is nonnegative; for `tmax = tmin`
it is exactly `0`; and when the unclamped Hargreaves term is negative the
result is floored to `0` (no error is possible: the function is total). -/
theorem eto_nonneg_and_clamped (tmin tmax : ℝ) :
    (tmin ≤ tmax → 0 ≤ simple_eto_mm_per_day tmin tmax) ∧
    (tmax = tmin → simple_eto_mm_per_day tmin tmax = 0) ∧
    (0.0023 * ((tmin + tmax) / 2 + 17.8) * Real.sqrt (max (tmax - tmin) 0) * 10 < 0 →
      simple_eto_mm_per_day tmin tmax = 0) := by
  refine ⟨fun _ => le_max_left _ _, fun h => ?_, fun h => ?_⟩
  · rw [simple_eto_mm_per_day]
    simp [h]
  · rw [simple_eto_mm_per_day]
    exact max_eq_left h.le

/-- Witness for C8: all three branches at concrete temperatures. The third
branch uses `tmin = tmax = -30`, where `tmean + 17.8 < 0` — but the jitterless
`sqrt 0` makes every branch collapse to `0`; `tmin = -40, tmax = -20` gives a
genuinely negative inner term. -/
theorem eto_nonneg_and_clamped_witness :
    0 ≤ simple_eto_mm_per_day 22 33 ∧
    simple_eto_mm_per_day 20 20 = 0 ∧
    simple_eto_mm_per_day (-40) (-20) = 0 := by
  refine ⟨(eto_nonneg_and_clamped 22 33).1 (by norm_num),
          (eto_nonneg_and_clamped 20 20).2.1 (by norm_num),
          (eto_nonneg_and_clamped (-40) (-20)).2.2 ?_⟩
  have hmax : max ((-20 : ℝ) - (-40)) 0 = 20 := by norm_num
  rw [hmax]
  have hs : 0 < Real.sqrt 20 := Real.sqrt_pos.mpr (by norm_num)
  nlinarith [hs]

/-- C9: the unit converter scales acres by `4046.8564224`, hectares by
`10000.0`, leaves square meters unchanged, and passes any other unit string
through unchanged rather than failing. -/
theorem area_conversion (v : ℝ) :
    area_to_sq_m v "एकड़" = v * 4046.8564224 ∧
    area_to_sq_m v "हेक्टेयर" = v * 10000.0 ∧
    area_to_sq_m v "m²" = v ∧
    (∀ u : String, u ≠ "एकड़" → u ≠ "हेक्टेयर" → u ≠ "m²" → area_to_sq_m v u = v) := by
  refine ⟨by simp [area_to_sq_m], by simp [area_to_sq_m], by simp [area_to_sq_m],
    fun u h1 h2 h3 => ?_⟩
  rw [area_to_sq_m, if_neg h1, if_neg h2, if_neg h3]

/-- Witness for C9: the three known units and an unrecognized one, at `v = 1`. -/
theorem area_conversion_witness :
    area_to_sq_m 1 "एकड़" = 1 * 4046.8564224 ∧
    area_to_sq_m 1 "हेक्टेयर" = 1 * 10000.0 ∧
    area_to_sq_m 1 "m²" = 1 ∧
    area_to_sq_m 1 "feet" = 1 :=
  ⟨(area_conversion 1).1, (area_conversion 1).2.1, (area_conversion 1).2.2.1,
   (area_conversion 1).2.2.2 "feet" (by decide) (by decide) (by decide)⟩

/-- C3: for a stage present in the tables, the Planner yields exactly 7
entries whose dates are the 7 consecutive calendar days starting on the day
of invocation (strictly increasing by one day per row). -/
theorem planner_seven_consecutive_days
    (stage soil_type : String) (kc : ℝ) (hkc : KC_STAGE stage = some kc)
    (vwc tmin tmax area_m2 : ℝ) (today : ℤ) (jitter : ℕ → ℝ) :
    ∃ l, projectPlan stage soil_type vwc tmin tmax area_m2 today jitter = some l ∧
      l.length = 7 ∧
      l.map DailyForecastEntry.date = (List.range 7).map (fun i => today + i) ∧
      List.Chain' (fun a b => b.date = a.date + 1) l := by
  refine ⟨(List.range 7).map (planEntry kc area_m2 tmin tmax jitter today), ?_, ?_, ?_, ?_⟩
  · rw [projectPlan, hkc]
    rfl
  · simp
  · rw [List.map_map]
    exact List.map_congr_left fun i _ => rfl
  · have h7 : List.range 7 = [0, 1, 2, 3, 4, 5, 6] := rfl
    rw [h7]
    simp only [List.map_cons, List.map_nil, List.chain'_cons, List.chain'_singleton, planEntry]
    refine ⟨?_, ?_, ?_, ?_, ?_, ?_, trivial⟩ <;> push_cast <;> ring

/-- Witness for C3: the vegetative stage at concrete inputs and the zero
jitter stream. -/
theorem planner_seven_consecutive_days_witness :
    ∃ l, projectPlan "वनस्पति अवस्था" "दोमट (Loam)" 0.16 22 33 1000 0 (fun _ => 0) = some l ∧
      l.length = 7 ∧
      l.map DailyForecastEntry.date = (List.range 7).map (fun i => (0 : ℤ) + i) ∧
      List.Chain' (fun a b => b.date = a.date + 1) l :=
  planner_seven_consecutive_days "वनस्पति अवस्था" "दोमट (Loam)" 0.95
    (by simp [KC_STAGE]) 0.16 22 33 1000 0 (fun _ => 0)

/-- C4: every Planner entry for day `i` carries
`etcMm = kc * eto_i` and `liters = kc * eto_i * areaM2`, where `eto_i` is
computed from that day's perturbed temperatures only — no moisture-deficit
term appears (unlike the Estimator's same-day liters, cf.
`estimator_matches_spec_formulas`), and the whole plan is independent of the
soil type and of `vwc`. -/
theorem planner_entries_omit_deficit
    (stage : String) (kc : ℝ) (hkc : KC_STAGE stage = some kc)
    (tmin tmax area_m2 : ℝ) (today : ℤ) (jitter : ℕ → ℝ) :
    (∀ (s1 s2 : String) (v1 v2 : ℝ),
      projectPlan stage s1 v1 tmin tmax area_m2 today jitter =
        projectPlan stage s2 v2 tmin tmax area_m2 today jitter) ∧
    (∀ (soil_type : String) (vwc : ℝ), ∃ l,
      projectPlan stage soil_type vwc tmin tmax area_m2 today jitter = some l ∧
      l.length = 7 ∧
      ∀ i (hi : i < l.length),
        (l.get ⟨i, hi⟩).etc_mm =
          kc * simple_eto_mm_per_day (tmin + jitter (2 * i)) (tmax + jitter (2 * i + 1)) ∧
        (l.get ⟨i, hi⟩).liters =
          kc * simple_eto_mm_per_day (tmin + jitter (2 * i)) (tmax + jitter (2 * i + 1))
            * area_m2) := by
  constructor
  · intro s1 s2 v1 v2
    rfl
  · intro soil_type vwc
    refine ⟨(List.range 7).map (planEntry kc area_m2 tmin tmax jitter today), ?_, by simp, ?_⟩
    · rw [projectPlan, hkc]
      rfl
    · intro i hi
      simp only [List.get_eq_getElem, List.getElem_map, List.getElem_range]
      exact ⟨rfl, rfl⟩

/-- Witness for C4: the vegetative stage at concrete inputs. -/
theorem planner_entries_omit_deficit_witness :
    (∀ (s1 s2 : String) (v1 v2 : ℝ),
      projectPlan "वनस्पति अवस्था" s1 v1 22 33 1000 0 (fun _ => 0) =
        projectPlan "वनस्पति अवस्था" s2 v2 22 33 1000 0 (fun _ => 0)) ∧
    (∀ (soil_type : String) (vwc : ℝ), ∃ l,
      projectPlan "वनस्पति अवस्था" soil_type vwc 22 33 1000 0 (fun _ => 0) = some l ∧
      l.length = 7 ∧
      ∀ i (hi : i < l.length),
        (l.get ⟨i, hi⟩).etc_mm =
          0.95 * simple_eto_mm_per_day (22 + (fun _ : ℕ => (0 : ℝ)) (2 * i))
            (33 + (fun _ : ℕ => (0 : ℝ)) (2 * i + 1)) ∧
        (l.get ⟨i, hi⟩).liters =
          0.95 * simple_eto_mm_per_day (22 + (fun _ : ℕ => (0 : ℝ)) (2 * i))
            (33 + (fun _ : ℕ => (0 : ℝ)) (2 * i + 1)) * 1000) :=
  planner_entries_omit_deficit "वनस्पति अवस्था" 0.95 (by simp [KC_STAGE])
    22 33 1000 0 (fun _ => 0)

/-- C7: the Planner reads at most the first 14 draws of the random stream
(two per day for 7 days); two runs with identical inputs whose streams agree
on those draws produce identical plans. In particular a fixed seed, which
fixes the stream, makes the plan reproducible. -/
theorem planner_deterministic_in_seed
    (stage soil_type : String) (vwc tmin tmax area_m2 : ℝ) (today : ℤ)
    (j1 j2 : ℕ → ℝ) (h : ∀ k, k < 14 → j1 k = j2 k) :
    projectPlan stage soil_type vwc tmin tmax area_m2 today j1 =
      projectPlan stage soil_type vwc tmin tmax area_m2 today j2 := by
  rw [projectPlan, projectPlan]
  cases hkc : KC_STAGE stage with
  | none => rfl
  | some kc =>
    simp only [Option.map_some']
    congr 1
    apply List.map_congr_left
    intro i hi
    have hi7 : i < 7 := List.mem_range.mp hi
    rw [planEntry, planEntry, h (2 * i) (by omega), h (2 * i + 1) (by omega)]

/-- Witness for C7: two concrete streams that agree on the first 14 draws
(and differ afterwards) give the same plan. -/
theorem planner_deterministic_in_seed_witness :
    projectPlan "वनस्पति अवस्था" "दोमट (Loam)" 0.16 22 33 1000 0 (fun _ => 0) =
      projectPlan "वनस्पति अवस्था" "दोमट (Loam)" 0.16 22 33 1000 0
        (fun k => if k < 14 then 0 else 1) :=
  planner_deterministic_in_seed "वनस्पति अवस्था" "दोमट (Loam)" 0.16 22 33 1000 0
    (fun _ => 0) (fun k => if k < 14 then 0 else 1)
    (fun k hk => by simp [hk])

/-- C5 fails as stated: with a (physically meaningless but numerically
accepted) negative area, `liters = max(0, deficit + etc) * areaM2` is
negative — here `-54` at `areaM2 = -1`. -/
theorem estimator_nonneg_counterexample :
    irrigation_need_liters "दोमट (Loam)" "वनस्पति अवस्था" 0 0.18 (-1) 20 20 =
      some (-54, 54, 0) ∧ (-54 : ℝ) < 0 :=
  ⟨irrigation_eval_neg_area, by norm_num⟩

/-- C5 amended: `deficitMm >= 0` and `etcMm >= 0` hold for all real inputs;
`liters >= 0` additionally needs `areaM2 >= 0` (which the UI guarantees via
`min_value=0.0`, but the function itself does not). -/
theorem estimator_outputs_nonneg
    (soil_type stage : String) (raw root kc : ℝ)
    (hraw : SOIL_RAW_MM_PER_M soil_type = some raw)
    (hroot : ROOT_DEPTH_M stage = some root)
    (hkc : KC_STAGE stage = some kc)
    (vwc target_low area_m2 tmin tmax : ℝ) (harea : 0 ≤ area_m2) :
    ∃ liters deficit_mm etc_mm,
      irrigation_need_liters soil_type stage vwc target_low area_m2 tmin tmax =
        some (liters, deficit_mm, etc_mm) ∧
      0 ≤ liters ∧ 0 ≤ deficit_mm ∧ 0 ≤ etc_mm := by
  have hdef : 0 ≤ max (target_low - vwc) 0 / max target_low 1e-6 * raw * root := by
    have hnum : (0 : ℝ) ≤ max (target_low - vwc) 0 := le_max_right _ _
    have hden : (0 : ℝ) ≤ max target_low 1e-6 :=
      le_trans (by norm_num) (le_max_right _ _)
    exact mul_nonneg (mul_nonneg (div_nonneg hnum hden) (soil_raw_pos hraw).le)
      (root_depth_pos hroot).le
  have hetc : 0 ≤ kc * simple_eto_mm_per_day tmin tmax :=
    mul_nonneg (kc_stage_pos hkc).le (simple_eto_nonneg tmin tmax)
  exact ⟨_, _, _,
    irrigation_need_liters_eq soil_type stage raw root kc hraw hroot hkc
      vwc target_low area_m2 tmin tmax,
    mul_nonneg (le_max_left _ _) harea, hdef, hetc⟩

/-- Witness for C5 (amended): Loam / vegetative stage, `areaM2 = 1000`. -/
theorem estimator_outputs_nonneg_witness :
    (0 : ℝ) ≤ 1000 ∧
    ∃ liters deficit_mm etc_mm,
      irrigation_need_liters "दोमट (Loam)" "वनस्पति अवस्था" 0.16 0.18 1000 22 33 =
        some (liters, deficit_mm, etc_mm) ∧
      0 ≤ liters ∧ 0 ≤ deficit_mm ∧ 0 ≤ etc_mm :=
  ⟨by norm_num,
   estimator_outputs_nonneg "दोमट (Loam)" "वनस्पति अवस्था" 90 0.6 0.95
     (by simp [SOIL_RAW_MM_PER_M]) (by simp [ROOT_DEPTH_M]) (by simp [KC_STAGE])
     0.16 0.18 1000 22 33 (by norm_num)⟩

/-- C6 fails as stated: at `areaM2 = -1 <= 0` the function returns
`liters = -54`, not `0` (it multiplies the nonnegative total by the raw
area). Only `areaM2 = 0` forces `liters = 0`. -/
theorem zero_area_counterexample :
    irrigation_need_liters "दोमट (Loam)" "वनस्पति अवस्था" 0 0.18 (-1) 20 20 =
      some (-54, 54, 0) ∧ (-54 : ℝ) ≠ 0 :=
  ⟨irrigation_eval_neg_area, by norm_num⟩

/-- C6 amended: at `areaM2 = 0` the Estimator returns `liters = 0`, and it
does not fail (it returns a value for any real inputs once the lookups
succeed). For negative area the liters are `totalMm * areaM2`, which need
not be `0`. -/
theorem estimator_zero_area_zero_liters
    (soil_type stage : String) (raw root kc : ℝ)
    (hraw : SOIL_RAW_MM_PER_M soil_type = some raw)
    (hroot : ROOT_DEPTH_M stage = some root)
    (hkc : KC_STAGE stage = some kc)
    (vwc target_low tmin tmax : ℝ) :
    irrigation_need_liters soil_type stage vwc target_low 0 tmin tmax =
      some (0, max (target_low - vwc) 0 / max target_low 1e-6 * raw * root,
            kc * simple_eto_mm_per_day tmin tmax) := by
  rw [irrigation_need_liters_eq soil_type stage raw root kc hraw hroot hkc
    vwc target_low 0 tmin tmax, mul_zero]

/-- Witness for C6 (amended): Loam / vegetative stage at zero area. -/
theorem estimator_zero_area_zero_liters_witness :
    irrigation_need_liters "दोमट (Loam)" "वनस्पति अवस्था" 0.16 0.18 0 22 33 =
      some (0, max (0.18 - 0.16) 0 / max 0.18 1e-6 * 90 * 0.6,
            0.95 * simple_eto_mm_per_day 22 33) :=
  estimator_zero_area_zero_liters "दोमट (Loam)" "वनस्पति अवस्था" 90 0.6 0.95
    (by simp [SOIL_RAW_MM_PER_M]) (by simp [ROOT_DEPTH_M]) (by simp [KC_STAGE])
    0.16 0.18 22 33

/-- A soil lookup succeeds exactly on the three table keys. -/
lemma soil_raw_isSome_iff (s : String) :
    (SOIL_RAW_MM_PER_M s).isSome ↔ s ∈ soilKeys := by
  rw [SOIL_RAW_MM_PER_M, soilKeys]
  split_ifs <;> simp [*]

/-- A root-depth lookup succeeds exactly on the four stage keys. -/
lemma root_depth_isSome_iff (st : String) :
    (ROOT_DEPTH_M st).isSome ↔ st ∈ stageKeys := by
  rw [ROOT_DEPTH_M, stageKeys]
  split_ifs <;> simp [*]

/-- A crop-coefficient lookup succeeds exactly on the four stage keys. -/
lemma kc_stage_isSome_iff (st : String) :
    (KC_STAGE st).isSome ↔ st ∈ stageKeys := by
  rw [KC_STAGE, stageKeys]
  split_ifs <;> simp [*]

/-- The Estimator returns a value iff all three dict lookups succeed. -/
lemma irrigation_isSome_iff (soil_type stage : String)
    (vwc target_low area_m2 tmin tmax : ℝ) :
    (irrigation_need_liters soil_type stage vwc target_low area_m2 tmin tmax).isSome ↔
      (ROOT_DEPTH_M stage).isSome ∧ (SOIL_RAW_MM_PER_M soil_type).isSome ∧
        (KC_STAGE stage).isSome := by
  rw [irrigation_need_liters]
  cases ROOT_DEPTH_M stage <;> cases SOIL_RAW_MM_PER_M soil_type <;>
    cases KC_STAGE stage <;> simp

/-- C10: on the table keys the Estimator is total (both lookups succeed, the
division's denominator is positive, and `sqrt` receives a nonnegative
argument); for a soil type or stage outside the keys it fails the dict
lookup (`KeyError`, modelled as `none`). -/
theorem estimator_total_on_table_keys (soil_type stage : String)
    (vwc target_low area_m2 tmin tmax : ℝ) :
    (soil_type ∈ soilKeys → stage ∈ stageKeys →
      (irrigation_need_liters soil_type stage vwc target_low area_m2 tmin tmax).isSome) ∧
    (soil_type ∉ soilKeys →
      irrigation_need_liters soil_type stage vwc target_low area_m2 tmin tmax = none) ∧
    (stage ∉ stageKeys →
      irrigation_need_liters soil_type stage vwc target_low area_m2 tmin tmax = none) ∧
    0 < max target_low 1e-6 ∧ 0 ≤ max (tmax - tmin) 0 := by
  refine ⟨fun hs hst => ?_, fun hs => ?_, fun hst => ?_, ?_, le_max_right _ _⟩
  · rw [irrigation_isSome_iff]
    exact ⟨(root_depth_isSome_iff stage).mpr hst, (soil_raw_isSome_iff soil_type).mpr hs,
      (kc_stage_isSome_iff stage).mpr hst⟩
  · rw [← Option.not_isSome_iff_eq_none]
    rw [irrigation_isSome_iff]
    exact fun h => hs ((soil_raw_isSome_iff soil_type).mp h.2.1)
  · rw [← Option.not_isSome_iff_eq_none]
    rw [irrigation_isSome_iff]
    exact fun h => hst ((root_depth_isSome_iff stage).mp h.1)
  · exact lt_of_lt_of_le (by norm_num) (le_max_right _ _)

/-- Witness for C10: a valid soil/stage pair yields a value; an unknown soil
type or unknown stage yields `none`. -/
theorem estimator_total_on_table_keys_witness :
    (irrigation_need_liters "दोमट (Loam)" "वनस्पति अवस्था" 0.16 0.18 1000 22 33).isSome ∧
    irrigation_need_liters "laterite" "वनस्पति अवस्था" 0.16 0.18 1000 22 33 = none ∧
    irrigation_need_liters "दोमट (Loam)" "dormant" 0.16 0.18 1000 22 33 = none :=
  ⟨(estimator_total_on_table_keys "दोमट (Loam)" "वनस्पति अवस्था" 0.16 0.18 1000 22 33).1
      (by decide) (by decide),
   (estimator_total_on_table_keys "laterite" "वनस्पति अवस्था" 0.16 0.18 1000 22 33).2.1
      (by decide),
   (estimator_total_on_table_keys "दोमट (Loam)" "dormant" 0.16 0.18 1000 22 33).2.2.1
      (by decide)⟩

end SIH
